import Mathlib

/-
Verification of the alpha-recover program (src/main.rs).
The program derives an image with an alpha channel from two alpha-less
images of the same scene, one rendered on a black and one on a white
background.  We embed the pure core of the program: the per-pixel
transform `magic`, the validation `preflight_checks`, and the
quantization performed in the output loops of `main`.  Floating-point
samples are modelled as rationals; the Rust saturating float-to-integer
cast `as u8` / `as u16` (truncate toward zero, then saturate to the
target range) is modelled by `satCast`.
-/

namespace AlphaRecover

/-- Blend mode selected on the command line (clap value enum); the default
variant in the source is `Black`. -/
inductive Blend
  | White
  | Black
  | Mix
deriving DecidableEq, Repr

/-- The color types of the image crate that the program distinguishes. -/
inductive ColorType
  | L8
  | La8
  | L16
  | La16
  | Rgb8
  | Rgba8
  | Rgb16
  | Rgba16
  | Rgb32F
  | Rgba32F
deriving DecidableEq, Repr

/-- Whether a color type carries color (image crate `has_color`): the
Rgb/Rgba families do, the luma families do not. -/
def ColorType.has_color : ColorType → Bool
  | .Rgb8 | .Rgba8 | .Rgb16 | .Rgba16 | .Rgb32F | .Rgba32F => true
  | .L8 | .La8 | .L16 | .La16 => false

/-- Bits per pixel of a color type (image crate `bits_per_pixel`). -/
def ColorType.bits_per_pixel : ColorType → Nat
  | .L8 => 8
  | .La8 => 16
  | .L16 => 16
  | .La16 => 32
  | .Rgb8 => 24
  | .Rgba8 => 32
  | .Rgb16 => 48
  | .Rgba16 => 64
  | .Rgb32F => 96
  | .Rgba32F => 128

/-- Channel count of a color type (image crate `channel_count`). -/
def ColorType.channel_count : ColorType → Nat
  | .L8 => 1
  | .La8 => 2
  | .L16 => 1
  | .La16 => 2
  | .Rgb8 => 3
  | .Rgba8 => 4
  | .Rgb16 => 3
  | .Rgba16 => 4
  | .Rgb32F => 3
  | .Rgba32F => 4

/-- Bits per channel, as computed in `main`:
`color_type.bits_per_pixel() / color_type.channel_count()`. -/
def ColorType.bits_per_channel (c : ColorType) : Nat :=
  c.bits_per_pixel / c.channel_count

/-- A three-channel rgb32f input sample, the element type of the rasters
after `into_rgb32f()`; float channels are modelled as rationals. -/
structure Pixel3 where
  r : ℚ
  g : ℚ
  b : ℚ
deriving DecidableEq, Repr

/-- The four-item f64 array returned by `magic`: recovered color plus alpha. -/
structure Pixel4 where
  r : ℚ
  g : ℚ
  b : ℚ
  a : ℚ
deriving DecidableEq, Repr

/-- The per-pixel transform `magic` of src/main.rs: from a black-background
sample and a white-background sample, recover color and alpha.  Alpha is
`rb - rw + 1.0`, from the red channel only and unclamped; color channels
are divided by alpha only under the guard `alpha > 0.0` and are zero
otherwise. -/
def magic (black_pixel : Pixel3) (white_pixel : Pixel3) (blend : Blend) : Pixel4 :=
  let rb := black_pixel.r
  let gb := black_pixel.g
  let bb := black_pixel.b
  let rw := white_pixel.r
  let gw := white_pixel.g
  let bw := white_pixel.b
  let alpha := rb - rw + 1
  if alpha > 0 then
    match blend with
    | Blend.White => ⟨rw / alpha, gw / alpha, bw / alpha, alpha⟩
    | Blend.Black => ⟨rb / alpha, gb / alpha, bb / alpha, alpha⟩
    | Blend.Mix =>
      ⟨(rb + rw) / 2 / alpha, (gb + gw) / 2 / alpha, (bb + bw) / 2 / alpha, alpha⟩
  else
    ⟨0, 0, 0, alpha⟩

/-- The metadata of a decoded raster that `preflight_checks` inspects:
dimensions and color type. -/
structure ImageMeta where
  width : Nat
  height : Nat
  color : ColorType
deriving DecidableEq, Repr

/-- `dimensions()` of a raster. -/
def ImageMeta.dimensions (img : ImageMeta) : Nat × Nat :=
  (img.width, img.height)

/-- The color types rejected by `preflight_checks`:
`vec![ColorType::Rgb32F, ColorType::Rgba32F]`. -/
def unsupported_color_types : List ColorType :=
  [ColorType.Rgb32F, ColorType.Rgba32F]

/-- The three validation failures of `preflight_checks`, named as in the
spec; in the source all three are io errors of kind InvalidInput that
differ only in their message (see `PreflightError.message`). -/
inductive PreflightError
  | DimensionMismatch
  | UnsupportedPrecision
  | EncodingMismatch
deriving DecidableEq, Repr

/-- The error message the source attaches to each validation failure. -/
def PreflightError.message : PreflightError → String
  | .DimensionMismatch => "Both input images must be the same size"
  | .UnsupportedPrecision => "32-bit color is not supported"
  | .EncodingMismatch => "Both input images must use the same color format"

/-- `preflight_checks` of src/main.rs: dimension check first, then the
32-bit-float check on either input, then the equal-encoding check. -/
def preflight_checks (black white : ImageMeta) :
    Except PreflightError Unit :=
  if black.dimensions ≠ white.dimensions then
    Except.error PreflightError.DimensionMismatch
  else if black.color ∈ unsupported_color_types ∨
      white.color ∈ unsupported_color_types then
    Except.error PreflightError.UnsupportedPrecision
  else if black.color ≠ white.color then
    Except.error PreflightError.EncodingMismatch
  else
    Except.ok ()

/-- `const SCALAR8: f64 = 255.0`. -/
def SCALAR8 : ℚ := 255

/-- `const SCALAR16: f64 = 65535.0`. -/
def SCALAR16 : ℚ := 65535

/-- The Rust float-to-unsigned-integer `as` cast: truncate toward zero and
saturate into `[0, maxVal]`.  On nonnegative rationals truncation is the
floor; `Nat.floor` already sends negative inputs to zero. -/
def satCast (maxVal : Nat) (v : ℚ) : Nat :=
  min (Nat.floor v) maxVal

/-- The 8-bit quantization performed in the output loops of `main`:
`(value * SCALAR8) as u8`. -/
def quantize8 (v : ℚ) : Nat :=
  satCast 255 (v * SCALAR8)

/-- The 16-bit quantization of the 16-bit output loops of `main`:
`(value * SCALAR16) as u16`. -/
def quantize16 (v : ℚ) : Nat :=
  satCast 65535 (v * SCALAR16)

/-- Modelled from the spec: the 16-bit-to-8-bit narrowing of the Output
Materializer, `(value * 255 + 127) / 65535` in integer arithmetic
(equivalently, divide by 257).  The source has no such function — its
8-bit branches quantize directly — so this definition follows the words
of §4.4 of the spec and is compared with the direct path in C2. -/
def narrow16to8 (v : Nat) : Nat :=
  (v * 255 + 127) / 65535

end AlphaRecover

namespace AlphaRecover

/-- One emitted output pixel of the match block in `main`: a
luma-plus-alpha pair or an RGBA quadruple, at 8 or 16 bits per channel. -/
inductive OutPixel
  | LumaA8 (l a : Nat)
  | LumaA16 (l a : Nat)
  | Rgba8 (r g b a : Nat)
  | Rgba16 (r g b a : Nat)
deriving DecidableEq, Repr

/-- The channel values of an output pixel, in emission order; the alpha
channel is always last. -/
def OutPixel.channels : OutPixel → List Nat
  | .LumaA8 l a => [l, a]
  | .LumaA16 l a => [l, a]
  | .Rgba8 r g b a => [r, g, b, a]
  | .Rgba16 r g b a => [r, g, b, a]

/-- The target bit depth of an output pixel. -/
def OutPixel.bitDepth : OutPixel → Nat
  | .LumaA8 _ _ => 8
  | .LumaA16 _ _ => 16
  | .Rgba8 _ _ _ _ => 8
  | .Rgba16 _ _ _ _ => 16

/-- The per-pixel body of the match block in `main`: given the shared
color type of the validated inputs and the result `new` of `magic`, the
pixel written to the output buffer.  The grayscale branches write
`LumaA([new[0] * scalar, new[3] * scalar])`, discarding `new[1]` and
`new[2]`; the color branches write all four channels; `None` mirrors the
empty fallthrough arm. -/
def materializePixel (color_type : ColorType) (new : Pixel4) : Option OutPixel :=
  match color_type with
  | .L8 | .La8 =>
    some (OutPixel.LumaA8 (quantize8 new.r) (quantize8 new.a))
  | .L16 | .La16 =>
    some (OutPixel.LumaA16 (quantize16 new.r) (quantize16 new.a))
  | .Rgb8 | .Rgba8 =>
    some (OutPixel.Rgba8 (quantize8 new.r) (quantize8 new.g)
      (quantize8 new.b) (quantize8 new.a))
  | .Rgb16 | .Rgba16 =>
    some (OutPixel.Rgba16 (quantize16 new.r) (quantize16 new.g)
      (quantize16 new.b) (quantize16 new.a))
  | .Rgb32F | .Rgba32F => none

/-- Quantization at a given bit depth: the 8-bit path for depth 8, the
16-bit path otherwise.  Used to state the output-shape theorem. -/
def quantAt (d : Nat) (v : ℚ) : Nat :=
  if d = 8 then quantize8 v else quantize16 v

/-- The alpha component of `magic` is the raw `rb - rw + 1`, whatever the
blend mode and whichever branch of the guard is taken. -/
theorem magic_a_eq (bp wp : Pixel3) (blend : Blend) :
    (magic bp wp blend).a = bp.r - wp.r + 1 := by
  unfold magic
  cases blend <;> dsimp only [] <;> split <;> rfl

/-- When the raw alpha is not positive, `magic` takes the else branch:
color channels are zero and the raw alpha is passed through. -/
theorem magic_of_nonpos (bp wp : Pixel3) (blend : Blend)
    (h : bp.r - wp.r + 1 ≤ 0) :
    magic bp wp blend = ⟨0, 0, 0, bp.r - wp.r + 1⟩ := by
  unfold magic
  rw [if_neg (by simpa using h)]

/-- When the raw alpha is positive, `magic` divides the blend-selected
samples by that alpha. -/
theorem magic_of_pos (bp wp : Pixel3) (blend : Blend)
    (h : 0 < bp.r - wp.r + 1) :
    magic bp wp blend =
      match blend with
      | Blend.White => ⟨wp.r / (bp.r - wp.r + 1), wp.g / (bp.r - wp.r + 1),
          wp.b / (bp.r - wp.r + 1), bp.r - wp.r + 1⟩
      | Blend.Black => ⟨bp.r / (bp.r - wp.r + 1), bp.g / (bp.r - wp.r + 1),
          bp.b / (bp.r - wp.r + 1), bp.r - wp.r + 1⟩
      | Blend.Mix => ⟨(bp.r + wp.r) / 2 / (bp.r - wp.r + 1),
          (bp.g + wp.g) / 2 / (bp.r - wp.r + 1),
          (bp.b + wp.b) / 2 / (bp.r - wp.r + 1), bp.r - wp.r + 1⟩ := by
  unfold magic
  rw [if_pos (by simpa using h)]

end AlphaRecover

namespace AlphaRecover

/-- Characterization of a successful preflight: equal dimensions, neither
input in the unsupported 32-bit-float list, equal color types. -/
theorem preflight_checks_ok_iff (black white : ImageMeta) :
    preflight_checks black white = Except.ok () ↔
      black.dimensions = white.dimensions ∧
      black.color ∉ unsupported_color_types ∧
      white.color ∉ unsupported_color_types ∧
      black.color = white.color := by
  unfold preflight_checks
  split_ifs with h1 h2 h3 <;> simp_all [not_or]
  tauto

/-- The spec narrowing on 16-bit values is integer division by 257. -/
theorem narrow16to8_eq_div257 (q : Nat) :
    narrow16to8 q = q / 257 := by
  unfold narrow16to8
  omega

end AlphaRecover

namespace AlphaRecover

/-- Claim C1, counterexample: with blackSample.R = 1 and whiteSample.R = 0
the raw alpha is 2 and `magic` returns it unclamped, so the returned
alpha is neither clamp(raw, 0, 1) = 1 nor inside [0, 1]. -/
theorem magic_alpha_clamp_counterexample :
    (magic ⟨1, 0, 0⟩ ⟨0, 0, 0⟩ Blend.Black).a = 2 ∧
    ¬ (magic ⟨1, 0, 0⟩ ⟨0, 0, 0⟩ Blend.Black).a ≤ 1 ∧
    (magic ⟨1, 0, 0⟩ ⟨0, 0, 0⟩ Blend.Black).a ≠
      max 0 (min ((1:ℚ) - 0 + 1) 1) := by
  rw [magic_a_eq]
  norm_num

/-- Claim C1 (amended): the alpha returned by `magic` is the raw value
blackSample.R - whiteSample.R + 1.0, computed from the red channels only
and not clamped; consequently it lies in [0, 1] exactly when the raw
value does, and may leave [0, 1] otherwise (clipping is deferred to the
output quantization). -/
theorem magic_alpha_unclamped_red_only (bp wp : Pixel3) (blend : Blend) :
    (magic bp wp blend).a = bp.r - wp.r + 1 ∧
    (0 ≤ bp.r - wp.r + 1 → bp.r - wp.r + 1 ≤ 1 →
      0 ≤ (magic bp wp blend).a ∧ (magic bp wp blend).a ≤ 1) := by
  refine ⟨magic_a_eq bp wp blend, fun h0 h1 => ?_⟩
  rw [magic_a_eq]
  exact ⟨h0, h1⟩

/-- Witness for C1 at blackSample.R = 1/2, whiteSample.R = 3/4: raw alpha
is 3/4 and the returned alpha equals it and lies in [0, 1]. -/
theorem magic_alpha_unclamped_red_only_witness :
    (magic ⟨1/2, 0, 0⟩ ⟨3/4, 0, 0⟩ Blend.Black).a = (1:ℚ)/2 - 3/4 + 1 ∧
    0 ≤ (magic ⟨1/2, 0, 0⟩ ⟨3/4, 0, 0⟩ Blend.Black).a ∧
    (magic ⟨1/2, 0, 0⟩ ⟨3/4, 0, 0⟩ Blend.Black).a ≤ 1 :=
  ⟨(magic_alpha_unclamped_red_only ⟨1/2, 0, 0⟩ ⟨3/4, 0, 0⟩ Blend.Black).1,
   (magic_alpha_unclamped_red_only ⟨1/2, 0, 0⟩ ⟨3/4, 0, 0⟩ Blend.Black).2
     (by norm_num) (by norm_num)⟩

/-- Claim C2: the direct 8-bit quantization of the output loops,
`(v * 255.0) as u8`, equals first quantizing to the internal 16-bit
representation, `(v * 65535.0) as u16`, and then narrowing 16-to-8 by
the linear rescale `(value * 255 + 127) / 65535`, which is division by
257; so the single-step code refines the two-step pipeline of the spec
for every recovered channel value. -/
theorem quantize8_refines_narrowed_quantize16 (v : ℚ) :
    quantize8 v = narrow16to8 (quantize16 v) ∧
    quantize8 v = quantize16 v / 257 := by
  have key : quantize8 v = narrow16to8 (quantize16 v) := by
    unfold quantize8 quantize16 satCast SCALAR8 SCALAR16
    rw [narrow16to8_eq_div257, min_def, min_def]
    rcases le_or_lt 1 v with hv | hv
    · have h16 : (65535:ℕ) ≤ Nat.floor (v * 65535) := by
        apply Nat.le_floor
        push_cast
        nlinarith
      have h8 : (255:ℕ) ≤ Nat.floor (v * 255) := by
        apply Nat.le_floor
        push_cast
        nlinarith
      split_ifs <;> omega
    · rcases le_or_lt v 0 with hv0 | hv0
      · have h16 : Nat.floor (v * 65535) = 0 := Nat.floor_of_nonpos (by nlinarith)
        have h8 : Nat.floor (v * 255) = 0 := Nat.floor_of_nonpos (by nlinarith)
        split_ifs <;> omega
      · have h16lt : Nat.floor (v * 65535) < 65535 := by
          rw [Nat.floor_lt (by positivity)]
          push_cast
          nlinarith
        have h8lt : Nat.floor (v * 255) < 255 := by
          rw [Nat.floor_lt (by positivity)]
          push_cast
          nlinarith
        have hdiv : Nat.floor (v * 65535) / 257 = Nat.floor (v * 255) := by
          have h1 : Nat.floor ((v * 65535) / (257:ℕ)) = Nat.floor (v * 65535) / 257 :=
            Nat.floor_div_nat (v * 65535) 257
          have h2 : (v * 65535) / ((257:ℕ):ℚ) = v * 255 := by
            push_cast
            ring
          rw [h2] at h1
          omega
        split_ifs <;> omega
  exact ⟨key, by rw [key, narrow16to8_eq_div257]⟩

/-- Claim C5: quantization saturates.  A recovered channel value above 1
(such as 1.3) quantizes to the maximum representable integer of the
target bit depth — 255 for 8-bit, 65535 for 16-bit — and a value below 0
quantizes to 0; nothing wraps. -/
theorem quantize_saturates (v : ℚ) :
    (1 < v → quantize8 v = 255 ∧ quantize16 v = 65535) ∧
    (v < 0 → quantize8 v = 0 ∧ quantize16 v = 0) := by
  constructor
  · intro hv
    unfold quantize8 quantize16 satCast SCALAR8 SCALAR16
    have h8 : (255:ℕ) ≤ Nat.floor (v * 255) := by
      apply Nat.le_floor
      push_cast
      nlinarith
    have h16 : (65535:ℕ) ≤ Nat.floor (v * 65535) := by
      apply Nat.le_floor
      push_cast
      nlinarith
    rw [min_def, min_def]
    split_ifs <;> omega
  · intro hv
    unfold quantize8 quantize16 satCast SCALAR8 SCALAR16
    have h8 : Nat.floor (v * 255) = 0 := Nat.floor_of_nonpos (by nlinarith)
    have h16 : Nat.floor (v * 65535) = 0 := Nat.floor_of_nonpos (by nlinarith)
    rw [min_def, min_def]
    split_ifs <;> omega

/-- Witness for C5 at v = 1.3 = 13/10 (saturates high) and v = -1/2
(saturates low). -/
theorem quantize_saturates_witness :
    (quantize8 (13/10) = 255 ∧ quantize16 (13/10) = 65535) ∧
    (quantize8 (-1/2) = 0 ∧ quantize16 (-1/2) = 0) :=
  ⟨(quantize_saturates (13/10)).1 (by norm_num),
   (quantize_saturates (-1/2)).2 (by norm_num)⟩

end AlphaRecover

namespace AlphaRecover

/-- Claim C3: with positive alpha, the color channels of `magic` are the
blend-selected samples divided by alpha: black samples under Black,
white samples under White, and the average of both under Mix. -/
theorem magic_blend_mode_selection (bp wp : Pixel3)
    (h : 0 < bp.r - wp.r + 1) :
    magic bp wp Blend.Black =
      ⟨bp.r / (bp.r - wp.r + 1), bp.g / (bp.r - wp.r + 1),
       bp.b / (bp.r - wp.r + 1), bp.r - wp.r + 1⟩ ∧
    magic bp wp Blend.White =
      ⟨wp.r / (bp.r - wp.r + 1), wp.g / (bp.r - wp.r + 1),
       wp.b / (bp.r - wp.r + 1), bp.r - wp.r + 1⟩ ∧
    magic bp wp Blend.Mix =
      ⟨(bp.r + wp.r) / 2 / (bp.r - wp.r + 1),
       (bp.g + wp.g) / 2 / (bp.r - wp.r + 1),
       (bp.b + wp.b) / 2 / (bp.r - wp.r + 1), bp.r - wp.r + 1⟩ :=
  ⟨magic_of_pos bp wp Blend.Black h,
   magic_of_pos bp wp Blend.White h,
   magic_of_pos bp wp Blend.Mix h⟩

/-- Witness for C3 at the example of the spec: blackSample (0.2, 0.4, 0.6)
and whiteSample (0.3, 0.5, 0.7), raw alpha 0.9. -/
theorem magic_blend_mode_selection_witness :
    magic ⟨2/10, 4/10, 6/10⟩ ⟨3/10, 5/10, 7/10⟩ Blend.Black =
      ⟨(2/10) / ((2:ℚ)/10 - 3/10 + 1), (4/10) / ((2:ℚ)/10 - 3/10 + 1),
       (6/10) / ((2:ℚ)/10 - 3/10 + 1), (2:ℚ)/10 - 3/10 + 1⟩ ∧
    magic ⟨2/10, 4/10, 6/10⟩ ⟨3/10, 5/10, 7/10⟩ Blend.White =
      ⟨(3/10) / ((2:ℚ)/10 - 3/10 + 1), (5/10) / ((2:ℚ)/10 - 3/10 + 1),
       (7/10) / ((2:ℚ)/10 - 3/10 + 1), (2:ℚ)/10 - 3/10 + 1⟩ ∧
    magic ⟨2/10, 4/10, 6/10⟩ ⟨3/10, 5/10, 7/10⟩ Blend.Mix =
      ⟨((2:ℚ)/10 + 3/10) / 2 / ((2:ℚ)/10 - 3/10 + 1),
       ((4:ℚ)/10 + 5/10) / 2 / ((2:ℚ)/10 - 3/10 + 1),
       ((6:ℚ)/10 + 7/10) / 2 / ((2:ℚ)/10 - 3/10 + 1),
       (2:ℚ)/10 - 3/10 + 1⟩ :=
  magic_blend_mode_selection ⟨2/10, 4/10, 6/10⟩ ⟨3/10, 5/10, 7/10⟩ (by norm_num)

/-- Claim C4: when the alpha computed by `magic` equals 0, all three
output color channels are exactly 0, whatever the blend mode. -/
theorem magic_zero_alpha_zero_color (bp wp : Pixel3) (blend : Blend)
    (h : (magic bp wp blend).a = 0) :
    (magic bp wp blend).r = 0 ∧ (magic bp wp blend).g = 0 ∧
    (magic bp wp blend).b = 0 := by
  have hraw : bp.r - wp.r + 1 = 0 := by
    rw [← magic_a_eq bp wp blend]
    exact h
  rw [magic_of_nonpos bp wp blend (le_of_eq hraw)]
  exact ⟨rfl, rfl, rfl⟩

/-- Witness for C4 with blackSample.R = 0 and whiteSample.R = 1 under Mix:
the computed alpha is 0 and every color channel is 0. -/
theorem magic_zero_alpha_zero_color_witness :
    (magic ⟨0, 1/2, 1/2⟩ ⟨1, 1/2, 1/2⟩ Blend.Mix).r = 0 ∧
    (magic ⟨0, 1/2, 1/2⟩ ⟨1, 1/2, 1/2⟩ Blend.Mix).g = 0 ∧
    (magic ⟨0, 1/2, 1/2⟩ ⟨1, 1/2, 1/2⟩ Blend.Mix).b = 0 :=
  magic_zero_alpha_zero_color ⟨0, 1/2, 1/2⟩ ⟨1, 1/2, 1/2⟩ Blend.Mix
    (by rw [magic_a_eq]; norm_num)

/-- Claim C10: `magic` is a total function; its divisions run only under
the guard alpha > 0, and whenever the raw alpha is at most 0 the result
is exactly (0, 0, 0, rawAlpha), the possibly negative raw alpha passed
through unmodified as the fourth component. -/
theorem magic_total_guard (bp wp : Pixel3) (blend : Blend) :
    (magic bp wp blend).a = bp.r - wp.r + 1 ∧
    (bp.r - wp.r + 1 ≤ 0 →
      magic bp wp blend = ⟨0, 0, 0, bp.r - wp.r + 1⟩) :=
  ⟨magic_a_eq bp wp blend, magic_of_nonpos bp wp blend⟩

/-- Witness for C10 with an out-of-range white sample R = 3/2: the raw
alpha is -1/2 and `magic` returns (0, 0, 0, -1/2). -/
theorem magic_total_guard_witness :
    (magic ⟨0, 0, 0⟩ ⟨3/2, 0, 0⟩ Blend.White).a = (0:ℚ) - 3/2 + 1 ∧
    magic ⟨0, 0, 0⟩ ⟨3/2, 0, 0⟩ Blend.White = ⟨0, 0, 0, (0:ℚ) - 3/2 + 1⟩ :=
  ⟨(magic_total_guard ⟨0, 0, 0⟩ ⟨3/2, 0, 0⟩ Blend.White).1,
   (magic_total_guard ⟨0, 0, 0⟩ ⟨3/2, 0, 0⟩ Blend.White).2 (by norm_num)⟩

end AlphaRecover

namespace AlphaRecover

/-- Claim C6: whenever the two input rasters differ in width or height,
`preflight_checks` fails with the dimension-mismatch error (the size
check runs first, so no other error can preempt it) and hence never
reaches the output stage. -/
theorem preflight_dimension_mismatch (black white : ImageMeta)
    (h : black.dimensions ≠ white.dimensions) :
    preflight_checks black white =
      Except.error PreflightError.DimensionMismatch := by
  unfold preflight_checks
  rw [if_pos h]

/-- Witness for C6: a 10 by 10 raster against a 10 by 11 raster of the
same color type. -/
theorem preflight_dimension_mismatch_witness :
    preflight_checks ⟨10, 10, ColorType.L8⟩ ⟨10, 11, ColorType.L8⟩ =
      Except.error PreflightError.DimensionMismatch :=
  preflight_dimension_mismatch ⟨10, 10, ColorType.L8⟩ ⟨10, 11, ColorType.L8⟩
    (by simp [ImageMeta.dimensions])

/-- Claim C7: when the dimensions agree and either raster is of the
32-bit floating-point class (Rgb32F or Rgba32F), `preflight_checks`
fails with the unsupported-precision error — whether or not the two
encodings agree. -/
theorem preflight_unsupported_precision (black white : ImageMeta)
    (hdim : black.dimensions = white.dimensions)
    (h32 : black.color ∈ unsupported_color_types ∨
      white.color ∈ unsupported_color_types) :
    preflight_checks black white =
      Except.error PreflightError.UnsupportedPrecision := by
  unfold preflight_checks
  rw [if_neg (not_not_intro hdim), if_pos h32]

/-- Witness for C7: two 10 by 10 Rgb32F rasters with identical encodings
are still rejected for precision. -/
theorem preflight_unsupported_precision_witness :
    preflight_checks ⟨10, 10, ColorType.Rgb32F⟩ ⟨10, 10, ColorType.Rgb32F⟩ =
      Except.error PreflightError.UnsupportedPrecision :=
  preflight_unsupported_precision ⟨10, 10, ColorType.Rgb32F⟩
    ⟨10, 10, ColorType.Rgb32F⟩ rfl
    (Or.inl (by simp [unsupported_color_types]))

/-- Claim C8, counterexample: a 10 by 10 L8 raster against a 10 by 10
Rgba32F raster has identical dimensions and differing encodings, yet
`preflight_checks` reports UnsupportedPrecision, not EncodingMismatch:
the 32-bit-float check runs before the encoding check. -/
theorem preflight_encoding_counterexample :
    (ImageMeta.mk 10 10 ColorType.L8).dimensions =
      (ImageMeta.mk 10 10 ColorType.Rgba32F).dimensions ∧
    (ImageMeta.mk 10 10 ColorType.L8).color ≠
      (ImageMeta.mk 10 10 ColorType.Rgba32F).color ∧
    preflight_checks ⟨10, 10, ColorType.L8⟩ ⟨10, 10, ColorType.Rgba32F⟩ =
      Except.error PreflightError.UnsupportedPrecision ∧
    preflight_checks ⟨10, 10, ColorType.L8⟩ ⟨10, 10, ColorType.Rgba32F⟩ ≠
      Except.error PreflightError.EncodingMismatch := by
  have hd : ¬((ImageMeta.mk 10 10 ColorType.L8).dimensions ≠
      (ImageMeta.mk 10 10 ColorType.Rgba32F).dimensions) := by
    simp [ImageMeta.dimensions]
  refine ⟨rfl, by simp, ?_, ?_⟩
  · unfold preflight_checks
    rw [if_neg hd, if_pos (Or.inr (by simp [unsupported_color_types]))]
  · unfold preflight_checks
    rw [if_neg hd, if_pos (Or.inr (by simp [unsupported_color_types]))]
    simp

/-- Claim C8 (amended): for rasters of identical dimensions neither of
which is of the 32-bit floating-point class, differing color encodings
make `preflight_checks` fail with the encoding-mismatch error; when one
input is 32-bit float the unsupported-precision error takes precedence. -/
theorem preflight_encoding_mismatch (black white : ImageMeta)
    (hdim : black.dimensions = white.dimensions)
    (hb : black.color ∉ unsupported_color_types)
    (hw : white.color ∉ unsupported_color_types)
    (hc : black.color ≠ white.color) :
    preflight_checks black white =
      Except.error PreflightError.EncodingMismatch := by
  unfold preflight_checks
  rw [if_neg (not_not_intro hdim), if_neg (not_or.mpr ⟨hb, hw⟩), if_pos hc]

/-- Witness for C8: an 8-bit grayscale raster against an 8-bit RGB raster
of identical dimensions. -/
theorem preflight_encoding_mismatch_witness :
    preflight_checks ⟨10, 10, ColorType.L8⟩ ⟨10, 10, ColorType.Rgb8⟩ =
      Except.error PreflightError.EncodingMismatch :=
  preflight_encoding_mismatch ⟨10, 10, ColorType.L8⟩ ⟨10, 10, ColorType.Rgb8⟩
    rfl (by simp [unsupported_color_types]) (by simp [unsupported_color_types])
    (by simp)

/-- Claim C9: for every input pair accepted by `preflight_checks`, the
per-pixel materialization is defined, runs at the bits-per-channel of the
shared input color type (8 or 16), and emits a 2-channel luma-plus-alpha
pixel for grayscale inputs — luminance taken from the red recovered
channel, green and blue discarded — or a 4-channel RGBA pixel for color
inputs; the quantized alpha channel is always present and last. -/
theorem materialize_output_shape (black white : ImageMeta) (new : Pixel4)
    (h : preflight_checks black white = Except.ok ()) :
    ∃ out : OutPixel,
      materializePixel black.color new = some out ∧
      out.bitDepth = black.color.bits_per_channel ∧
      out.channels =
        (if black.color.has_color then
          [quantAt out.bitDepth new.r, quantAt out.bitDepth new.g,
           quantAt out.bitDepth new.b, quantAt out.bitDepth new.a]
        else
          [quantAt out.bitDepth new.r, quantAt out.bitDepth new.a]) := by
  have h32 : black.color ∉ unsupported_color_types :=
    ((preflight_checks_ok_iff black white).mp h).2.1
  rcases black with ⟨wd, ht, c⟩
  cases c <;>
    simp_all [materializePixel, quantAt, unsupported_color_types,
      OutPixel.channels, OutPixel.bitDepth, ColorType.has_color,
      ColorType.bits_per_channel, ColorType.bits_per_pixel,
      ColorType.channel_count]

/-- Witness for C9: a validated pair of 2 by 2 Rgb8 rasters and one
recovered pixel; the emitted pixel is 8-bit RGBA with all four quantized
channels. -/
theorem materialize_output_shape_witness :
    ∃ out : OutPixel,
      materializePixel (ImageMeta.mk 2 2 ColorType.Rgb8).color
          ⟨1, 1/2, 0, 1/2⟩ = some out ∧
      out.bitDepth = (ImageMeta.mk 2 2 ColorType.Rgb8).color.bits_per_channel ∧
      out.channels =
        (if (ImageMeta.mk 2 2 ColorType.Rgb8).color.has_color then
          [quantAt out.bitDepth (1:ℚ), quantAt out.bitDepth ((1:ℚ)/2),
           quantAt out.bitDepth (0:ℚ), quantAt out.bitDepth ((1:ℚ)/2)]
        else
          [quantAt out.bitDepth (1:ℚ), quantAt out.bitDepth ((1:ℚ)/2)]) :=
  materialize_output_shape ⟨2, 2, ColorType.Rgb8⟩ ⟨2, 2, ColorType.Rgb8⟩
    ⟨1, 1/2, 0, 1/2⟩ (by rfl)

end AlphaRecover
